import Mathlib

/-!
Shallow embedding of the tkhongsap/agiopen repository: small wrapper
classes that render natural-language instruction strings for an external
computer-use agent ("oagi"/Lux) and wrap the agent's boolean/raising
outcome into plain-data result records.

The external agent call (`agent.execute(...)`) is opaque to the repo; it
is modelled by an `AgentOutcome` / `CallOutcome` / `AttemptOutcome`
parameter: either the boolean completion flag the call returned, an
`ImportError` of the `oagi` package, or an exception carrying a message
string (Python's `str(e)`).  Wall-clock readings (`datetime.now()`
differences) are opaque external inputs, modelled as a `Nat` parameter.
All instruction-building code, being pure string manipulation, is
translated literally from the source.
-/

namespace AgiOpen

/-- Python's `"\n".join(parts)`. -/
def joinLines : List String → String
  | [] => ""
  | [s] => s
  | s :: rest => s ++ "\n" ++ joinLines rest

/-- A Python value (`Any`) as the repo uses one: only its `str()` rendering
and its truthiness are ever consumed. -/
inductive PyVal where
  | pstr (s : String)
  | pint (n : Int)
  | pbool (b : Bool)
deriving Repr, DecidableEq

/-- Python `str(v)`. -/
def PyVal.str : PyVal → String
  | .pstr s => s
  | .pint n => toString n
  | .pbool b => if b then "True" else "False"

/-- Python truthiness of a value. -/
def PyVal.truthy : PyVal → Bool
  | .pstr s => s != ""
  | .pint n => n != 0
  | .pbool b => b

/-- Python truthiness of an `Optional[str]`: `None` and `""` are falsy.
`f` renders the clause the source guards with `if opt:`. -/
def optClause (o : Option String) (f : String → List String) : List String :=
  match o with
  | none => []
  | some s => if s == "" then [] else f s

/-- Number of (possibly overlapping) occurrences of the non-empty pattern
`p` in `s`: one per start position at which `p` is a prefix of the rest.
A measuring device for the spec's "occurs exactly once", not source code. -/
def countOccsAux (p : List Char) : List Char → Nat
  | [] => 0
  | c :: rest => (if p.isPrefixOf (c :: rest) then 1 else 0) + countOccsAux p rest

/-- Occurrence count of pattern `p` in string `s` (see `countOccsAux`). -/
def countOccs (p s : String) : Nat :=
  countOccsAux p.data s.data

/-- The message of the `ImportError` branch every wrapper shares
(`"oagi package not installed. Run: pip install oagi"`). -/
def importErrMsg : String := "oagi package not installed. Run: pip install oagi"

/-- Outcome of one awaited `agent.execute(...)` call as seen by a wrapper
whose `try` block also covers the `from oagi import ...` line:
the returned completion flag, an `ImportError`, or another exception
with message `str(e)`. -/
inductive AgentOutcome where
  | ok (completed : Bool)
  | importErr
  | exc (msg : String)
deriving Repr, DecidableEq

/-! ## src/src/qa_testing/test_runner.py -/

/-- `TestStep` dataclass. -/
structure TestStep where
  description : String
  action : String
  expected_result : Option String := none
  timeout : Int := 30
deriving Repr, DecidableEq

/-- `TestCase` dataclass. -/
structure TestCase where
  name : String
  description : String
  steps : List TestStep
  setup : Option String := none
  teardown : Option String := none
  tags : List String := []
deriving Repr, DecidableEq

/-- `TestResult` dataclass (`duration_seconds`, a float wall-clock reading
in the source, is modelled as an opaque `Nat`). -/
structure TestResult where
  test_name : String
  success : Bool
  steps_passed : Nat
  steps_total : Nat
  duration_seconds : Nat
  errors : List String
  screenshots : List String := []
deriving Repr, DecidableEq

/-- Numbered step lines of `TestRunner._build_test_instruction`
(`for i, step in enumerate(test.steps, 1): ...`). -/
def stepLines (i : Nat) : List TestStep → List String
  | [] => []
  | st :: rest =>
      ([toString i ++ ". " ++ st.description, "   Action: " ++ st.action] ++
        optClause st.expected_result (fun e => ["   Verify: " ++ e])) ++
      stepLines (i + 1) rest

/-- `TestRunner._build_test_instruction(test, base_url)`. -/
def buildTestInstruction (test : TestCase) (base_url : Option String) : String :=
  let parts := ["Test: " ++ test.name, "Description: " ++ test.description, ""]
  let parts := parts ++ optClause base_url (fun u => ["Navigate to: " ++ u, ""])
  let parts := parts ++ optClause test.setup (fun s => ["Setup:", s, ""])
  let parts := parts ++ ["Test Steps:"] ++ stepLines 1 test.steps
  let parts := parts ++ optClause test.teardown (fun s => ["", "Teardown:", s])
  joinLines parts

/-- `TestRunner.run_test(test)`: wraps one agent outcome into a
`TestResult`; the `try/except` makes it total (no exception escapes).
`duration` is the wall-clock reading the success and exception branches
take (`(datetime.now() - start_time).total_seconds()`). -/
def runTest (test : TestCase) (duration : Nat) (outcome : AgentOutcome) : TestResult :=
  match outcome with
  | .ok completed =>
      { test_name := test.name
        success := completed
        steps_passed := if completed then test.steps.length else 0
        steps_total := test.steps.length
        duration_seconds := duration
        errors := [] }
  | .importErr =>
      { test_name := test.name
        success := false
        steps_passed := 0
        steps_total := test.steps.length
        duration_seconds := 0
        errors := [importErrMsg] }
  | .exc m =>
      { test_name := test.name
        success := false
        steps_passed := 0
        steps_total := test.steps.length
        duration_seconds := duration
        errors := [m] }

/-- The nearest representable "TestCase missing its required fields":
every required dataclass field present but degenerate (empty name, empty
description, no steps). -/
def emptyTestCase : TestCase := { name := "", description := "", steps := [] }

/-- One suite item: a test case together with the external environment's
behaviour for its `run_test` call (wall-clock reading and agent outcome). -/
def SuiteItem : Type := TestCase × Nat × AgentOutcome

/-- `run_test` over a suite item. -/
def runTestItem (it : SuiteItem) : TestResult :=
  runTest it.1 it.2.1 it.2.2

/-- The sequential branch of `TestRunner.run_suite`: append each result,
`break` after a failure when `stop_on_failure`. -/
def runSuiteSeq (stop_on_failure : Bool) : List SuiteItem → List TestResult
  | [] => []
  | it :: rest =>
      let r := runTestItem it
      if stop_on_failure && !r.success then [r]
      else r :: runSuiteSeq stop_on_failure rest

/-- `TestRunner.run_suite(tests, stop_on_failure, parallel)`: the parallel
branch gathers `run_test` over all tests; the sequential branch loops. -/
def runSuite (tests : List SuiteItem) (stop_on_failure parallel : Bool) :
    List TestResult :=
  if parallel then tests.map runTestItem
  else runSuiteSeq stop_on_failure tests

/-! ## src/src/data_processing/bulk_entry.py -/

/-- `EntryRecord` dataclass (`data: dict[str, Any]` as an association list). -/
structure EntryRecord where
  data : List (String × PyVal)
  identifier : Option String := none
deriving Repr, DecidableEq

/-- `EntryResult` dataclass. -/
structure EntryResult where
  record : EntryRecord
  success : Bool
  error_message : Option String := none
deriving Repr, DecidableEq

/-- `BulkEntryResult` dataclass. -/
structure BulkEntryResult where
  total_records : Nat
  successful : Nat
  failed : Nat
  results : List EntryResult
  errors : List String := []
deriving Repr, DecidableEq

/-- Outcome of one awaited `agent.execute(...)` inside the per-record
`try/except` of `enter_records` / `update_records` (the `oagi` import sits
outside that inner `try`, so `ImportError` is a separate, loop-level case). -/
inductive CallOutcome where
  | ok (completed : Bool)
  | exc (msg : String)
deriving Repr, DecidableEq

/-- The `EntryResult` the loop body of `BulkDataEntry.enter_records`
appends for one record. -/
def entryOutcome (record : EntryRecord) (o : CallOutcome) : EntryResult :=
  match o with
  | .ok completed =>
      { record := record
        success := completed
        error_message := if completed then none else some "Entry did not complete" }
  | .exc m => { record := record, success := false, error_message := some m }

/-- `BulkDataEntry.enter_records(url, records, ...)`: each item pairs a
record with its call's outcome; `importOk = false` is the `ImportError`
case, in which the loop never runs and one error string is recorded. -/
def enterRecords (items : List (EntryRecord × CallOutcome)) (importOk : Bool) :
    BulkEntryResult :=
  let results := if importOk then items.map (fun it => entryOutcome it.1 it.2) else []
  let errors := if importOk then [] else [importErrMsg]
  let successful := results.countP (fun r => r.success)
  { total_records := items.length
    successful := successful
    failed := items.length - successful
    results := results
    errors := errors }

/-- The `EntryResult` the loop body of `BulkDataEntry.update_records`
appends: unlike `enter_records`, a completed=False call leaves
`error_message` at its `None` default. -/
def updateOutcome (record : EntryRecord) (o : CallOutcome) : EntryResult :=
  match o with
  | .ok completed => { record := record, success := completed }
  | .exc m => { record := record, success := false, error_message := some m }

/-- `BulkDataEntry.update_records(search_url, records, ...)`; its
`ImportError` handler is `pass`, so no error string is recorded. -/
def updateRecords (items : List (EntryRecord × CallOutcome)) (importOk : Bool) :
    BulkEntryResult :=
  let results := if importOk then items.map (fun it => updateOutcome it.1 it.2) else []
  let successful := results.countP (fun r => r.success)
  { total_records := items.length
    successful := successful
    failed := items.length - successful
    results := results }

/-! ## src/src/web_automation/data_scraper.py -/

/-- `ScrapeTarget` dataclass. -/
structure ScrapeTarget where
  name : String
  description : String
  expected_type : String := "text"
deriving Repr, DecidableEq

/-- `ScrapeResult` dataclass (`data: dict[str, Any]`; the success path
stores a `None` placeholder per target, so values are `Option PyVal`). -/
structure ScrapeResult where
  success : Bool
  url : String
  data : List (String × Option PyVal)
  errors : List String
  screenshot_path : Option String := none
deriving Repr, DecidableEq

/-- `DataScraper.scrape(url, targets)`: wraps one agent outcome into a
`ScrapeResult`; the instruction string it builds is consumed only by the
external agent, which the `outcome` parameter stands for. -/
def scrape (url : String) (targets : List ScrapeTarget) (outcome : AgentOutcome) :
    ScrapeResult :=
  match outcome with
  | .ok completed =>
      { success := completed
        url := url
        data := targets.map (fun t => (t.name, none))
        errors := [] }
  | .importErr => { success := false, url := url, data := [], errors := [importErrMsg] }
  | .exc m => { success := false, url := url, data := [], errors := [m] }

/-! ## src/src/web_automation/form_filler.py -/

/-- `FormField` dataclass (`value: Any`). -/
structure FormField where
  name : String
  value : PyVal
  field_type : String := "text"
deriving Repr, DecidableEq

/-- One line of `FormFiller._build_field_instructions` for field number `i`. -/
def renderField (i : Nat) (f : FormField) : String :=
  if f.field_type == "checkbox" then
    let action := if f.value.truthy then "check" else "uncheck"
    toString i ++ ". " ++ action.capitalize ++ " the '" ++ f.name ++ "' checkbox"
  else if f.field_type == "dropdown" then
    toString i ++ ". Select '" ++ f.value.str ++ "' from the '" ++ f.name ++ "' dropdown"
  else if f.field_type == "radio" then
    toString i ++ ". Select the '" ++ f.value.str ++ "' radio option for '" ++ f.name ++ "'"
  else
    toString i ++ ". Enter '" ++ f.value.str ++ "' in the '" ++ f.name ++ "' field"

/-- The numbered lines of `_build_field_instructions`
(`for i, field in enumerate(fields, 1)`). -/
def fieldLines (i : Nat) : List FormField → List String
  | [] => []
  | f :: rest => renderField i f :: fieldLines (i + 1) rest

/-- `FormFiller._build_field_instructions(fields)`. -/
def buildFieldInstructions (fields : List FormField) : String :=
  joinLines (fieldLines 1 fields)

/-! ## src/examples/healthcare_coveredca.py -/

/-- `UserInfo` dataclass. -/
structure UserInfo where
  zip_code : String
  state : String := "California"
  household_size : Int := 1
  annual_income : Int := 50000
  age : Option Int := none
  include_spouse : Bool := false
  num_dependents : Int := 0
deriving Repr, DecidableEq

/-- Insert a thousands separator every three digits of a reversed digit
list (helper for Python's `format(n, ",")`). -/
def commaChunks : List Char → List Char
  | a :: b :: c :: d :: rest => a :: b :: c :: ',' :: commaChunks (d :: rest)
  | l => l

/-- Python's `f"{n:,}"` for an int: decimal digits grouped in threes by
commas, minus sign in front. -/
def commaFmtInt (n : Int) : String :=
  let digits := (toString n.natAbs).data
  let grouped := String.mk (commaChunks digits.reverse).reverse
  if n < 0 then "-" ++ grouped else grouped

/-- The `household_desc` string `navigate_to_coveredca` computes; the
source builds it but never interpolates it into the instruction. -/
def householdDesc (u : UserInfo) : String :=
  let d := toString u.household_size ++ " person(s)"
  let d := if u.include_spouse then d ++ " (including spouse)" else d
  if u.num_dependents > 0 then
    d ++ ", " ++ toString u.num_dependents ++ " dependent(s)"
  else d

/-- The instruction f-string of `navigate_to_coveredca(user_info)`,
whitespace of the triple-quoted literal preserved.  The ZIP code is
interpolated twice: at step 4 (healthcare.gov) and at step 8
(confirmation on Covered California). -/
def buildNavigationInstruction (u : UserInfo) : String :=
  "\n    1. Navigate to https://www.healthcare.gov" ++
  "\n    2. Look for 'Get Coverage', 'See Plans', or 'Start Application' button" ++
  "\n    3. Click the main call-to-action button" ++
  "\n    4. If asked for ZIP code, enter: " ++ u.zip_code ++
  "\n    5. If asked for state, select: " ++ u.state ++
  "\n    6. The site should detect California and offer to redirect to Covered California" ++
  "\n    7. Click to proceed to Covered California (coveredca.com)" ++
  "\n    8. On Covered California website:" ++
  "\n       - If prompted, confirm the ZIP code: " ++ u.zip_code ++
  "\n       - Enter household size: " ++ toString u.household_size ++
  "\n       - Enter estimated annual income: $" ++ commaFmtInt u.annual_income ++
  "\n    9. Click 'Shop and Compare' or 'See Plans' button" ++
  "\n    10. Wait for plan options to load" ++
  "\n    11. Verify health plan options are displayed" ++
  "\n    "

/-- The navigation template up to and including the first ZIP slot. -/
def navHead : String :=
  "\n    1. Navigate to https://www.healthcare.gov" ++
  "\n    2. Look for 'Get Coverage', 'See Plans', or 'Start Application' button" ++
  "\n    3. Click the main call-to-action button" ++
  "\n    4. If asked for ZIP code, enter: "

/-- The navigation template between the two ZIP slots (contains the state
interpolation). -/
def navMid (u : UserInfo) : String :=
  "\n    5. If asked for state, select: " ++ u.state ++
  "\n    6. The site should detect California and offer to redirect to Covered California" ++
  "\n    7. Click to proceed to Covered California (coveredca.com)" ++
  "\n    8. On Covered California website:" ++
  "\n       - If prompted, confirm the ZIP code: "

/-- The navigation template after the second ZIP slot (household size and
income interpolations). -/
def navTail (u : UserInfo) : String :=
  "\n       - Enter household size: " ++ toString u.household_size ++
  "\n       - Enter estimated annual income: $" ++ commaFmtInt u.annual_income ++
  "\n    9. Click 'Shop and Compare' or 'See Plans' button" ++
  "\n    10. Wait for plan options to load" ++
  "\n    11. Verify health plan options are displayed" ++
  "\n    "

/-- The `UserInfo` of `python healthcare_coveredca.py --zip-code 90210`
(all other fields at their defaults). -/
def defaultUser : UserInfo := { zip_code := "90210" }

/-! ## src/examples/cvs_appointment_booking.py -/

/-- The result dict of `book_cvs_appointment` as `book_with_retry`
consumes it: its `"success"` flag and `"errors"` list (the remaining keys
— `steps_completed`, `total_steps`, `execution_time`, `final_state` — are
opaque passthrough of the external result and are elided). -/
structure BookingDict where
  success : Bool
  errors : List String := []
deriving Repr, DecidableEq

/-- Outcome of one `book_cvs_appointment(info, verbose=True)` call inside
the retry loop's `try/except`: the returned dict, or an exception. -/
inductive AttemptOutcome where
  | returns (d : BookingDict)
  | raises (msg : String)
deriving Repr, DecidableEq

/-- True when the attempt does not end the retry loop: the call raised,
or returned a dict whose `"success"` is false. -/
def attemptFails : AttemptOutcome → Bool
  | .returns d => !d.success
  | .raises _ => true

/-- Observable effects of `book_with_retry`: a `book_cvs_appointment`
invocation, or an `asyncio.sleep(5)` pause between attempts. -/
inductive RetryEvent where
  | call
  | pause
deriving Repr, DecidableEq

/-- What `book_with_retry` returns: on an attempt whose dict has
`success=True`, that dict (which has no `"message"` key, hence
`message := none`); after the loop, the literal failure dict. -/
structure RetryResult where
  success : Bool
  message : Option String
  errors : List String
deriving Repr, DecidableEq

/-- The retry loop of `book_with_retry`: `remaining` attempts left,
`attempt` the 1-based number of the next one (callers keep
`attempt + remaining = max_attempts + 1`, so `remaining = 1` is the last
attempt, after which no pause follows — Python's
`if attempt < max_attempts: await asyncio.sleep(5)`).
`supply a` is the outcome of attempt number `a`. -/
def bookRetryGo (max_attempts : Nat) (supply : Nat → AttemptOutcome) :
    Nat → Nat → List RetryEvent × RetryResult
  | _, 0 =>
      ([], { success := false
             message := some ("Failed after " ++ toString max_attempts ++ " attempts")
             errors := ["Max retry attempts exceeded"] })
  | attempt, remaining + 1 =>
      let continue_ :=
        let next := bookRetryGo max_attempts supply (attempt + 1) remaining
        (RetryEvent.call ::
          (if remaining = 0 then next.1 else RetryEvent.pause :: next.1), next.2)
      match supply attempt with
      | .returns d =>
          if d.success then
            ([RetryEvent.call], { success := d.success, message := none, errors := d.errors })
          else continue_
      | .raises _ => continue_

/-- `book_with_retry(info, max_attempts)`: the trace of calls and pauses,
and the returned dict. -/
def bookWithRetry (supply : Nat → AttemptOutcome) (max_attempts : Nat) :
    List RetryEvent × RetryResult :=
  bookRetryGo max_attempts supply 1 max_attempts

/-- The failure dict `book_with_retry` returns once the loop is over. -/
def exhaustedResult (max_attempts : Nat) : RetryResult :=
  { success := false
    message := some ("Failed after " ++ toString max_attempts ++ " attempts")
    errors := ["Max retry attempts exceeded"] }

/-- The event trace of `r` consecutive failing attempts: a call, then a
pause before each further call, no pause after the last. -/
def allFailTrace : Nat → List RetryEvent
  | 0 => []
  | 1 => [RetryEvent.call]
  | r + 2 => RetryEvent.call :: RetryEvent.pause :: allFailTrace (r + 1)

/-! ## src/examples/amazon_product_search.py -/

/-- `ProductInfo` dataclass. -/
structure ProductInfo where
  name : String
  price : String
  rating : Option String := none
  review_count : Option String := none
  url : Option String := none
  is_prime : Bool := false
  is_bestseller : Bool := false
deriving Repr, DecidableEq

/-- `SearchResult` dataclass (`execution_time: float` kept as `Float`;
no claim constrains its value). -/
structure SearchResult where
  success : Bool
  products : List ProductInfo := []
  search_query : String := ""
  total_results : Option Int := none
  execution_time : Float := 0.0
  errors : List String := []
deriving Repr

/-- A JSON value as `json.dump` receives one from `export_results`. -/
inductive JVal where
  | jnull
  | jbool (b : Bool)
  | jint (n : Int)
  | jfloat (x : Float)
  | jstr (s : String)
  | jarr (xs : List JVal)
  | jobj (fields : List (String × JVal))
deriving Repr

/-- `Optional[str]` to JSON (`None` becomes `null`). -/
def optStrJson : Option String → JVal
  | none => .jnull
  | some s => .jstr s

/-- `Optional[int]` to JSON. -/
def optIntJson : Option Int → JVal
  | none => .jnull
  | some n => .jint n

/-- The per-product dict of `export_results`' `"products"` list
comprehension. -/
def productJson (p : ProductInfo) : JVal :=
  .jobj [("name", .jstr p.name),
         ("price", .jstr p.price),
         ("rating", optStrJson p.rating),
         ("review_count", optStrJson p.review_count),
         ("url", optStrJson p.url),
         ("is_prime", .jbool p.is_prime),
         ("is_bestseller", .jbool p.is_bestseller)]

/-- The `data` dict `export_results(results, output_file)` builds and
hands to `json.dump`, in the source's key order; `timestamp` is the
external `datetime.now().isoformat()` reading.  The file write itself is
a terminal side effect of exactly this document. -/
def exportData (results : SearchResult) (timestamp : String) :
    List (String × JVal) :=
  [("search_query", .jstr results.search_query),
   ("success", .jbool results.success),
   ("total_results", optIntJson results.total_results),
   ("execution_time", .jfloat results.execution_time),
   ("timestamp", .jstr timestamp),
   ("products", .jarr (results.products.map productJson)),
   ("errors", .jarr (results.errors.map .jstr))]

/-! ## src/src/config.py -/

/-- `Config` dataclass (the three float action settings are never read by
`from_env`, which only fills the first five fields). -/
structure Config where
  api_key : String
  base_url : String := "https://api.agiopen.org"
  timeout : Int := 30
  max_retries : Int := 3
  verbose : Bool := false
  max_image_width : Int := 1920
  max_image_height : Int := 1080
  image_quality : Int := 85
  image_format : String := "png"
  mouse_move_duration : Float := 0.3
  click_delay : Float := 0.1
  type_interval : Float := 0.05
deriving Repr

/-- Digit run of Python's `int(s)` (helper): all-digit, non-empty. -/
def pyIntCore (cs : List Char) : Option Nat :=
  if cs.isEmpty then none
  else if cs.all Char.isDigit then
    some (cs.foldl (fun acc c => acc * 10 + (c.toNat - 48)) 0)
  else none

/-- Python's `str.strip()` over the character list: whitespace removed
from both ends. -/
def pyStrip (cs : List Char) : List Char :=
  ((cs.dropWhile Char.isWhitespace).reverse.dropWhile Char.isWhitespace).reverse

/-- Python's `int(s)` on its ASCII core: surrounding whitespace stripped,
optional sign, decimal digits; anything else raises `ValueError`
(underscore separators and non-ASCII digits, which Python also accepts,
are not modelled — no claim depends on them). -/
def pyInt (s : String) : Option Int :=
  match pyStrip s.data with
  | '-' :: rest => (pyIntCore rest).map (fun n => -(n : Int))
  | '+' :: rest => (pyIntCore rest).map (fun n => (n : Int))
  | cs => (pyIntCore cs).map (fun n => (n : Int))

/-- The `ValueError` message of `Config.from_env` for a missing or empty
`OAGI_API_KEY`. -/
def keyErrMsg : String :=
  "OAGI_API_KEY environment variable is required. Get your API key from https://developer.agiopen.org"

/-- The `ValueError` message Python's `int()` raises on a bad literal. -/
def intErrMsg (s : String) : String :=
  "invalid literal for int() with base 10: '" ++ s ++ "'"

/-- `os.getenv(key, default)`. -/
def getenvD (env : String → Option String) (key default_ : String) : String :=
  (env key).getD default_

/-- `Config.from_env()` over an environment `env` (`os.getenv` as a
function): a missing or empty `OAGI_API_KEY` raises `keyErrMsg`; then the
`int(...)` conversions of `OAGI_TIMEOUT` and `OAGI_MAX_RETRIES` (in the
source's argument order) may raise; otherwise the `Config` is built. -/
def fromEnv (env : String → Option String) : Except String Config :=
  match env "OAGI_API_KEY" with
  | none => .error keyErrMsg
  | some k =>
      if k = "" then .error keyErrMsg
      else
        let tstr := getenvD env "OAGI_TIMEOUT" "30"
        match pyInt tstr with
        | none => .error (intErrMsg tstr)
        | some t =>
            let rstr := getenvD env "OAGI_MAX_RETRIES" "3"
            match pyInt rstr with
            | none => .error (intErrMsg rstr)
            | some r =>
                .ok { api_key := k
                      base_url := getenvD env "OAGI_BASE_URL" "https://api.agiopen.org"
                      timeout := t
                      max_retries := r
                      verbose := (getenvD env "OAGI_VERBOSE" "false").toLower = "true" }

/-- An environment with the API key present but `OAGI_TIMEOUT` set to a
non-integer string. -/
def envBadTimeout : String → Option String := fun k =>
  if k = "OAGI_API_KEY" then some "sk-test-123"
  else if k = "OAGI_TIMEOUT" then some "abc"
  else none

/-- An environment with only the API key set. -/
def envKeyOnly : String → Option String := fun k =>
  if k = "OAGI_API_KEY" then some "sk-test-123" else none

/-- The empty environment. -/
def envEmpty : String → Option String := fun _ => none

/-! ## Helper lemmas -/

/-- The sequential suite loop with `stop_on_failure=False` is `map`. -/
theorem runSuiteSeq_no_stop (items : List SuiteItem) :
    runSuiteSeq false items = items.map runTestItem := by
  induction items with
  | nil => rfl
  | cons it rest ih => simp [runSuiteSeq, ih]

/-! ## Claim theorems -/

/-- C1: for `TestRunner.run_test` and `DataScraper.scrape`, an exception
from the external call (including `ImportError`) yields a record with
`success=False` and a non-empty errors list holding the stringified
exception, and — both wrappers being total functions — the exception is
never propagated; a `True` completion yields `success=True` with an empty
errors list. -/
theorem wrap_outcome_success_and_errors :
    ∀ (t : TestCase) (d : Nat) (m : String) (url : String) (targets : List ScrapeTarget),
      ((runTest t d (.exc m)).success = false ∧
        (runTest t d (.exc m)).errors = [m] ∧ (runTest t d (.exc m)).errors ≠ []) ∧
      ((runTest t d .importErr).success = false ∧
        (runTest t d .importErr).errors = [importErrMsg] ∧
        (runTest t d .importErr).errors ≠ []) ∧
      ((runTest t d (.ok true)).success = true ∧ (runTest t d (.ok true)).errors = []) ∧
      ((scrape url targets (.exc m)).success = false ∧
        (scrape url targets (.exc m)).errors = [m] ∧
        (scrape url targets (.exc m)).errors ≠ []) ∧
      ((scrape url targets .importErr).success = false ∧
        (scrape url targets .importErr).errors = [importErrMsg] ∧
        (scrape url targets .importErr).errors ≠ []) ∧
      ((scrape url targets (.ok true)).success = true ∧
        (scrape url targets (.ok true)).errors = []) := by
  intro t d m url targets
  simp [runTest, scrape]

/-- C1 witness at a concrete test case, scrape call and exception. -/
theorem wrap_outcome_success_and_errors_witness :
    (runTest { name := "t1", description := "d", steps := [] } 7 (.exc "boom")).success
        = false ∧
    (runTest { name := "t1", description := "d", steps := [] } 7 (.exc "boom")).errors
        = ["boom"] ∧
    (scrape "https://example.com" [] (.ok true)).success = true := by
  have h := wrap_outcome_success_and_errors
    { name := "t1", description := "d", steps := [] } 7 "boom" "https://example.com" []
  exact ⟨h.1.1, h.1.2.1, h.2.2.2.2.2.1⟩

/-- C9: `run_suite(parallel=True)` gathers `run_test` over every test, so
it returns exactly one result per test in input order and
`stop_on_failure` has no effect: every test is invoked even when an
earlier one fails. -/
theorem suite_parallel_runs_all :
    ∀ (tests : List SuiteItem) (stop_on_failure : Bool),
      runSuite tests stop_on_failure true = tests.map runTestItem ∧
      (runSuite tests stop_on_failure true).length = tests.length := by
  intro tests stop_on_failure
  refine ⟨rfl, ?_⟩
  simp [runSuite]

/-- C10: every `BulkEntryResult` of `enter_records` / `update_records`
satisfies `successful + failed = total_records`, `total_records` is the
input length, and `successful` counts the `success=True` entries of
`results`; with a failed import the results list is empty while
`total_records` still equals the input length. -/
theorem bulk_result_count_invariants :
    ∀ (items : List (EntryRecord × CallOutcome)) (importOk : Bool),
      ((enterRecords items importOk).successful + (enterRecords items importOk).failed
          = (enterRecords items importOk).total_records ∧
        (enterRecords items importOk).total_records = items.length ∧
        (enterRecords items importOk).successful
          = (enterRecords items importOk).results.countP (fun e => e.success)) ∧
      ((updateRecords items importOk).successful + (updateRecords items importOk).failed
          = (updateRecords items importOk).total_records ∧
        (updateRecords items importOk).total_records = items.length ∧
        (updateRecords items importOk).successful
          = (updateRecords items importOk).results.countP (fun e => e.success)) ∧
      (enterRecords items false).results = [] ∧
      (updateRecords items false).results = [] := by
  intro items importOk
  have he := List.countP_le_length (fun e : EntryResult => e.success)
    (l := items.map (fun it => entryOutcome it.1 it.2))
  have hu := List.countP_le_length (fun e : EntryResult => e.success)
    (l := items.map (fun it => updateOutcome it.1 it.2))
  simp [List.length_map] at he hu
  cases importOk with
  | false => simp [enterRecords, updateRecords]
  | true => simp [enterRecords, updateRecords]; omega

/-- C3: with `stop_on_failure=False` the sequential suite loop (and the
`enter_records` loop once the import succeeded) produces exactly one
record per input item, in input order, each reflecting only its own
item's outcome; a failing item at position `k` is marked failed there and
does not abort the loop. -/
theorem suite_records_all_items (items : List SuiteItem)
    (bitems : List (EntryRecord × CallOutcome)) (k j : Nat)
    (it : SuiteItem) (bit : EntryRecord × CallOutcome)
    (hk : items[k]? = some it) (hfail : (runTestItem it).success = false)
    (hj : bitems[j]? = some bit)
    (hbfail : (entryOutcome bit.1 bit.2).success = false) :
    runSuite items false false = items.map runTestItem ∧
    (runSuite items false false).length = items.length ∧
    (runSuite items false false)[k]? = some (runTestItem it) ∧
    (runTestItem it).success = false ∧
    (enterRecords bitems true).results = bitems.map (fun x => entryOutcome x.1 x.2) ∧
    (enterRecords bitems true).results.length = bitems.length ∧
    (enterRecords bitems true).results[j]? = some (entryOutcome bit.1 bit.2) ∧
    (entryOutcome bit.1 bit.2).success = false := by
  have hmap : runSuite items false false = items.map runTestItem :=
    runSuiteSeq_no_stop items
  refine ⟨hmap, ?_, ?_, hfail, ?_, ?_, ?_, hbfail⟩
  · rw [hmap]; simp
  · rw [hmap, List.getElem?_map, hk]; rfl
  · simp [enterRecords]
  · simp [enterRecords]
  · simp [enterRecords, List.getElem?_map, hj]

/-- C3 witness: two items with the second failing, for both loops. -/
theorem suite_records_all_items_witness :
    (runSuite
        [({ name := "a", description := "d", steps := [] }, 1, .ok true),
         ({ name := "b", description := "d", steps := [] }, 2, .exc "boom")]
        false false).length = 2 ∧
    (runSuite
        [({ name := "a", description := "d", steps := [] }, 1, .ok true),
         ({ name := "b", description := "d", steps := [] }, 2, .exc "boom")]
        false false)[1]? =
      some (runTestItem ({ name := "b", description := "d", steps := [] }, 2, .exc "boom")) ∧
    (enterRecords [({ data := [] }, .ok true), ({ data := [] }, .exc "bad")] true).results.length
      = 2 := by
  have h := suite_records_all_items
    [({ name := "a", description := "d", steps := [] }, 1, .ok true),
     ({ name := "b", description := "d", steps := [] }, 2, .exc "boom")]
    [({ data := [] }, .ok true), ({ data := [] }, .exc "bad")]
    1 1
    ({ name := "b", description := "d", steps := [] }, 2, .exc "boom")
    ({ data := [] }, .exc "bad")
    rfl rfl rfl rfl
  exact ⟨h.2.1, h.2.2.1, h.2.2.2.2.2.1⟩

/-- C4: with `stop_on_failure=True` (sequential mode) the suite loop
halts right after the first failing test: for tests `pre ++ x :: post`
where every test in `pre` passes and `x` fails, the result list is the
results of `pre` followed by the failing result — exactly
`pre.length + 1 = k` results, in input order. -/
theorem suite_stops_after_first_failure (pre post : List SuiteItem) (x : SuiteItem)
    (hpre : ∀ y ∈ pre, (runTestItem y).success = true)
    (hx : (runTestItem x).success = false) :
    runSuite (pre ++ x :: post) true false = pre.map runTestItem ++ [runTestItem x] ∧
    (runSuite (pre ++ x :: post) true false).length = pre.length + 1 := by
  have main : ∀ p : List SuiteItem, (∀ y ∈ p, (runTestItem y).success = true) →
      runSuiteSeq true (p ++ x :: post) = p.map runTestItem ++ [runTestItem x] := by
    intro p
    induction p with
    | nil => intro _; simp [runSuiteSeq, hx]
    | cons y ys ih =>
        intro h
        have hy := h y (by simp)
        have hrest := ih (fun z hz => h z (by simp [hz]))
        simp [runSuiteSeq, hy, hrest]
  have hm := main pre hpre
  refine ⟨hm, ?_⟩
  show (runSuiteSeq true (pre ++ x :: post)).length = pre.length + 1
  rw [hm]; simp

/-- C4 witness: of three tests the second fails, so exactly 2 results
come back. -/
theorem suite_stops_after_first_failure_witness :
    runSuite
        [({ name := "a", description := "d", steps := [] }, 1, .ok true),
         ({ name := "b", description := "d", steps := [] }, 2, .ok false),
         ({ name := "c", description := "d", steps := [] }, 3, .ok true)]
        true false =
      [runTestItem ({ name := "a", description := "d", steps := [] }, 1, .ok true),
       runTestItem ({ name := "b", description := "d", steps := [] }, 2, .ok false)] ∧
    (runSuite
        [({ name := "a", description := "d", steps := [] }, 1, .ok true),
         ({ name := "b", description := "d", steps := [] }, 2, .ok false),
         ({ name := "c", description := "d", steps := [] }, 3, .ok true)]
        true false).length = 2 := by
  have h := suite_stops_after_first_failure
    [({ name := "a", description := "d", steps := [] }, 1, .ok true)]
    [({ name := "c", description := "d", steps := [] }, 3, .ok true)]
    ({ name := "b", description := "d", steps := [] }, 2, .ok false)
    (by intro y hy; simp at hy; subst hy; rfl) rfl
  exact ⟨h.1, h.2⟩

/-- One failing attempt unfolds the retry loop by one step. -/
theorem bookRetryGo_step_fail (m : Nat) (supply : Nat → AttemptOutcome) (a r : Nat)
    (h : attemptFails (supply a) = true) :
    bookRetryGo m supply a (r + 1) =
      (RetryEvent.call ::
        (if r = 0 then (bookRetryGo m supply (a + 1) r).1
         else RetryEvent.pause :: (bookRetryGo m supply (a + 1) r).1),
       (bookRetryGo m supply (a + 1) r).2) := by
  cases hs : supply a with
  | returns d =>
      have hd : d.success = false := by simpa [attemptFails, hs] using h
      simp [bookRetryGo, hs, hd]
  | raises msg => simp [bookRetryGo, hs]

/-- When every attempt fails, the retry loop runs all its attempts,
pausing between consecutive ones, and ends with the exhausted-dict. -/
theorem bookRetryGo_all_fail (m : Nat) (supply : Nat → AttemptOutcome)
    (h : ∀ a, attemptFails (supply a) = true) :
    ∀ (r a : Nat), bookRetryGo m supply a r = (allFailTrace r, exhaustedResult m) := by
  intro r
  induction r with
  | zero => intro a; rfl
  | succ n ih =>
      intro a
      rw [bookRetryGo_step_fail m supply a n (h a), ih (a + 1)]
      cases n with
      | zero => rfl
      | succ n2 => rfl

/-- C5: with `max_attempts=3` and every underlying booking call failing
(returning `success=False` or raising), `book_with_retry` makes exactly 3
invocation attempts with one pause between consecutive attempts and none
after the last, and returns `success=False` with the message that the
retry attempts were exhausted. -/
theorem retry_exhausts_three_attempts (supply : Nat → AttemptOutcome)
    (h : ∀ a, attemptFails (supply a) = true) :
    bookWithRetry supply 3 =
      ([RetryEvent.call, RetryEvent.pause, RetryEvent.call, RetryEvent.pause,
        RetryEvent.call],
       { success := false
         message := some "Failed after 3 attempts"
         errors := ["Max retry attempts exceeded"] }) := by
  show bookRetryGo 3 supply 1 3 = _
  rw [bookRetryGo_all_fail 3 supply h 3 1]
  rfl

/-- C5 witness: a supply whose every call raises. -/
theorem retry_exhausts_three_attempts_witness :
    bookWithRetry (fun _ => .raises "network down") 3 =
      ([RetryEvent.call, RetryEvent.pause, RetryEvent.call, RetryEvent.pause,
        RetryEvent.call],
       { success := false
         message := some "Failed after 3 attempts"
         errors := ["Max retry attempts exceeded"] }) :=
  retry_exhausts_three_attempts (fun _ => .raises "network down") (fun _ => rfl)

/-- C8: for a `SearchResult` with an empty products list, the document
`export_results` hands to `json.dump` maps `"products"` to the empty
array, carries the `search_query` string unchanged, and has the fixed
schema fields (success flag, timestamp, errors). -/
theorem export_empty_products_schema (r : SearchResult) (ts : String)
    (h : r.products = []) :
    (exportData r ts).lookup "products" = some (.jarr []) ∧
    (exportData r ts).lookup "search_query" = some (.jstr r.search_query) ∧
    (exportData r ts).lookup "success" = some (.jbool r.success) ∧
    (exportData r ts).lookup "timestamp" = some (.jstr ts) ∧
    (exportData r ts).lookup "errors" = some (.jarr (r.errors.map .jstr)) := by
  obtain ⟨s, p, q, tot, et, er⟩ := r
  simp only at h
  subst h
  exact ⟨rfl, rfl, rfl, rfl, rfl⟩

/-- C8 witness: a concrete empty-products search result. -/
theorem export_empty_products_schema_witness :
    (exportData { success := true, search_query := "wireless headphones" } "2026-10-12T00:00:00").lookup
        "products" = some (.jarr []) ∧
    (exportData { success := true, search_query := "wireless headphones" } "2026-10-12T00:00:00").lookup
        "search_query" = some (.jstr "wireless headphones") := by
  have h := export_empty_products_schema
    { success := true, search_query := "wireless headphones" } "2026-10-12T00:00:00" rfl
  exact ⟨h.1, h.2.1⟩

set_option maxRecDepth 8192 in
/-- C2 counterexample: the claim "every literal parameter value occurs
exactly once" fails on the code. With the script's default inputs
(`--zip-code 90210`) the ZIP code occurs exactly twice in the rendered
healthcare-navigation instruction (step 4, healthcare.gov entry, and step
8, CoveredCA confirmation), not once; and a checkbox `FormField`'s value
(`True`) occurs zero times — the value only selects Check/Uncheck. -/
theorem zip_not_exactly_once :
    countOccs "90210" (buildNavigationInstruction defaultUser) = 2 ∧
    countOccs "90210" (buildNavigationInstruction defaultUser) ≠ 1 ∧
    countOccs "True"
        (buildFieldInstructions
          [{ name := "subscribe", value := .pbool true, field_type := "checkbox" }])
      = 0 := by
  refine ⟨?_, ?_, ?_⟩
  · decide
  · decide
  · decide

set_option maxRecDepth 8192 in
/-- C2 amended: the Instruction Builder renders every literal parameter
value in its expected position, and the rendered instruction is
non-empty; but the ZIP code is interpolated twice in the
healthcare-navigation instruction (healthcare.gov entry and CoveredCA
confirmation), and a checkbox `FormField`'s value is not interpolated
literally — it only chooses between Check and Uncheck — while values of
the other field types are rendered once in their line. -/
theorem instruction_values_positions :
    (∀ u : UserInfo,
      buildNavigationInstruction u =
        navHead ++ u.zip_code ++ navMid u ++ u.zip_code ++ navTail u ∧
      buildNavigationInstruction u ≠ "") ∧
    (∀ n v : String,
      buildFieldInstructions [{ name := n, value := .pstr v, field_type := "text" }] =
        "1. Enter '" ++ v ++ "' in the '" ++ n ++ "' field") ∧
    (∀ n : String,
      buildFieldInstructions
          [{ name := n, value := .pbool true, field_type := "checkbox" }] =
        "1. Check the '" ++ n ++ "' checkbox") ∧
    (∀ n v : String,
      buildFieldInstructions [{ name := n, value := .pstr v, field_type := "dropdown" }] =
        "1. Select '" ++ v ++ "' from the '" ++ n ++ "' dropdown") ∧
    (∀ n v : String,
      buildFieldInstructions [{ name := n, value := .pstr v, field_type := "radio" }] =
        "1. Select the '" ++ v ++ "' radio option for '" ++ n ++ "'") ∧
    (∀ n v ft : String, ft ≠ "checkbox" → ft ≠ "dropdown" → ft ≠ "radio" →
      buildFieldInstructions [{ name := n, value := .pstr v, field_type := ft }] =
        "1. Enter '" ++ v ++ "' in the '" ++ n ++ "' field") ∧
    (∀ (n : String) (v : PyVal),
      buildFieldInstructions [{ name := n, value := v, field_type := "checkbox" }] =
        "1. " ++ (if v.truthy then "Check" else "Uncheck") ++ " the '" ++ n ++ "' checkbox") := by
  refine ⟨?_, fun n v => rfl, fun n => rfl, fun n v => rfl, fun n v => rfl, ?_, ?_⟩
  · intro u
    have hdec : buildNavigationInstruction u =
        navHead ++ u.zip_code ++ navMid u ++ u.zip_code ++ navTail u := by
      simp only [buildNavigationInstruction, navHead, navMid, navTail, String.append_assoc]
    refine ⟨hdec, ?_⟩
    intro hc
    have hlen := congrArg String.length hc
    rw [hdec] at hlen
    simp only [String.length_append] at hlen
    have hpos : 0 < navHead.length := by decide
    have hz : ("" : String).length = 0 := rfl
    omega
  · intro n v ft h1 h2 h3
    have hb1 : (ft == "checkbox") = false := by simp [h1]
    have hb2 : (ft == "dropdown") = false := by simp [h2]
    have hb3 : (ft == "radio") = false := by simp [h3]
    simp [buildFieldInstructions, fieldLines, renderField, joinLines, hb1, hb2, hb3]
    rfl
  · intro n v
    cases h : v.truthy with
    | false =>
        simp [buildFieldInstructions, fieldLines, renderField, joinLines, h]
        rfl
    | true =>
        simp [buildFieldInstructions, fieldLines, renderField, joinLines, h]
        rfl

/-- C2 amended witness at the default user and one concrete field of
each rendering branch (text, checkbox checked and unchecked, dropdown,
radio, and a textarea hitting the default branch). -/
theorem instruction_values_positions_witness :
    buildNavigationInstruction defaultUser =
      navHead ++ defaultUser.zip_code ++ navMid defaultUser ++
        defaultUser.zip_code ++ navTail defaultUser ∧
    buildNavigationInstruction defaultUser ≠ "" ∧
    buildFieldInstructions [{ name := "email", value := .pstr "a@b.c", field_type := "text" }] =
      "1. Enter '" ++ "a@b.c" ++ "' in the '" ++ "email" ++ "' field" ∧
    buildFieldInstructions [{ name := "color", value := .pstr "Red", field_type := "dropdown" }] =
      "1. Select '" ++ "Red" ++ "' from the '" ++ "color" ++ "' dropdown" ∧
    buildFieldInstructions [{ name := "size", value := .pstr "M", field_type := "radio" }] =
      "1. Select the '" ++ "M" ++ "' radio option for '" ++ "size" ++ "'" ∧
    buildFieldInstructions
        [{ name := "message", value := .pstr "Hello!", field_type := "textarea" }] =
      "1. Enter '" ++ "Hello!" ++ "' in the '" ++ "message" ++ "' field" ∧
    buildFieldInstructions
        [{ name := "subscribe", value := .pbool false, field_type := "checkbox" }] =
      "1. " ++ (if PyVal.truthy (.pbool false) then "Check" else "Uncheck") ++
        " the '" ++ "subscribe" ++ "' checkbox" := by
  have h := instruction_values_positions
  exact ⟨(h.1 defaultUser).1, (h.1 defaultUser).2, h.2.1 "email" "a@b.c",
    h.2.2.2.1 "color" "Red", h.2.2.2.2.1 "size" "M",
    h.2.2.2.2.2.1 "message" "Hello!" "textarea" (by decide) (by decide) (by decide),
    h.2.2.2.2.2.2 "subscribe" (.pbool false)⟩

/-- C6 counterexample: `_build_test_instruction` contains no
required-field validation at all — it never raises or returns an error
signalling an incomplete task description.  A `TestCase` whose required
fields are degenerate (empty name, empty description, no steps) is
rendered into an ordinary instruction string rather than rejected. -/
theorem builder_renders_empty_testcase :
    buildTestInstruction emptyTestCase none = "Test: \nDescription: \n\nTest Steps:" ∧
    buildTestInstruction emptyTestCase none ≠ "" := by
  refine ⟨rfl, ?_⟩
  decide

/-- C6 amended: the Instruction Builder cannot fail.  In the source a
`TestCase` missing a required field is impossible past dataclass
construction (the constructor itself would raise, before the builder is
ever called), and `_build_test_instruction` validates nothing: it totally
renders every `TestCase` — including one with empty required fields — to
a non-empty string that opens with the test-name header. -/
theorem builder_total_renders_header :
    ∀ (t : TestCase) (base_url : Option String),
      (∃ rest, buildTestInstruction t base_url = ("Test: " ++ t.name ++ "\n") ++ rest) ∧
      buildTestInstruction t base_url ≠ "" := by
  intro t base_url
  refine ⟨⟨_, rfl⟩, ?_⟩
  intro hc
  have hlen := congrArg String.length hc
  have hdec : buildTestInstruction t base_url =
      ("Test: " ++ t.name ++ "\n") ++
        joinLines (("Description: " ++ t.description) ::
          ([""] ++ optClause base_url (fun u => ["Navigate to: " ++ u, ""]) ++
            optClause t.setup (fun s => ["Setup:", s, ""]) ++
            ["Test Steps:"] ++ stepLines 1 t.steps ++
            optClause t.teardown (fun s => ["", "Teardown:", s]))) := rfl
  rw [hdec] at hlen
  simp only [String.length_append] at hlen
  have h6 : ("Test: " : String).length = 6 := rfl
  have h1 : ("\n" : String).length = 1 := rfl
  have hz : ("" : String).length = 0 := rfl
  omega

/-- C6 amended witness at a concrete test case. -/
theorem builder_total_renders_header_witness :
    (∃ rest,
      buildTestInstruction { name := "Login Test", description := "Verify login", steps := [] }
          none = ("Test: " ++ "Login Test" ++ "\n") ++ rest) ∧
    buildTestInstruction { name := "Login Test", description := "Verify login", steps := [] }
        none ≠ "" :=
  builder_total_renders_header
    { name := "Login Test", description := "Verify login", steps := [] } none

/-- C7 counterexample: `Config.from_env` can fail even though the API key
is present and non-empty — with `OAGI_TIMEOUT` set to `"abc"` the
`int(...)` conversion raises, so no `Config` carrying the key is
returned. -/
theorem fromEnv_bad_timeout_not_ok :
    envBadTimeout "OAGI_API_KEY" = some "sk-test-123" ∧
    fromEnv envBadTimeout = .error (intErrMsg "abc") ∧
    (fromEnv envBadTimeout).isOk = false := by
  exact ⟨rfl, rfl, rfl⟩

/-- C7 amended: `Config.from_env` raises the descriptive `ValueError`
naming `OAGI_API_KEY` — never a silent default — whenever that variable
is absent or empty; when it is present and non-empty *and* the optional
numeric overrides `OAGI_TIMEOUT` / `OAGI_MAX_RETRIES` are absent or parse
as integers, it returns a `Config` carrying that key (with the key
present but such an override non-numeric it raises the int-parse
`ValueError` instead). -/
theorem fromEnv_key_behaviour (env : String → Option String) :
    ((env "OAGI_API_KEY" = none ∨ env "OAGI_API_KEY" = some "") →
      fromEnv env = .error keyErrMsg) ∧
    (0 < countOccs "OAGI_API_KEY" keyErrMsg ∧ keyErrMsg ≠ "") ∧
    (∀ (k : String) (t r : Int), env "OAGI_API_KEY" = some k → ¬ k = "" →
      pyInt (getenvD env "OAGI_TIMEOUT" "30") = some t →
      pyInt (getenvD env "OAGI_MAX_RETRIES" "3") = some r →
      ∃ c, fromEnv env = .ok c ∧ c.api_key = k ∧ c.timeout = t ∧ c.max_retries = r) := by
  refine ⟨?_, ⟨by decide, by decide⟩, ?_⟩
  · rintro (h | h) <;> simp [fromEnv, h]
  · intro k t r hk hne ht hr
    simp only [fromEnv, hk, ht, hr]
    rw [if_neg hne]
    exact ⟨_, rfl, rfl, rfl, rfl⟩

/-- C7 amended witness: the empty environment fails with the key-naming
message; an environment with only the key set yields a `Config` carrying
it and the numeric defaults. -/
theorem fromEnv_key_behaviour_witness :
    fromEnv envEmpty = .error keyErrMsg ∧
    ∃ c, fromEnv envKeyOnly = .ok c ∧ c.api_key = "sk-test-123" ∧
      c.timeout = 30 ∧ c.max_retries = 3 := by
  refine ⟨(fromEnv_key_behaviour envEmpty).1 (Or.inl rfl), ?_⟩
  exact (fromEnv_key_behaviour envKeyOnly).2.2 "sk-test-123" 30 3 rfl
    (by decide) (by decide) (by decide)

end AgiOpen
